import Mathlib

/-!
Verification of the tracer-test probe pipeline.

The Go sources are shallowly embedded as pure Lean functions:

* `pkg/health/health.go` — the Status State (`HealthState`) with its atomic
  mutators `SetReady` / `IncrementRequests` and the `/ready` and `/metrics`
  handlers.  Each atomic operation in the Go code is a single indivisible
  read-modify-write, so it is modelled as one state-transition step; the
  `int64` request counter uses explicit two's-complement wraparound.
* `pkg/httpclient/client.go` — `RoundTrip` of the instrumented transport and
  `Get` of the probe client.  Outcomes of external calls (`net.LookupIP`,
  the base `RoundTrip`) are function parameters; span and log operations are
  emitted, in the order the Go statements execute them (a `defer span.End()`
  runs at function return), into an event trace.  The string attributes
  passed at span start are carried on the `startSpan` event; attributes set
  later (durations, sizes, resolved addresses — values that depend on the
  wall clock or on abstracted response details) are abstracted to
  `setAttributes` events.
* `main.go` — `makeRequest` (one probe cycle) and the sequential scheduler
  loop (`runSched`) that calls `makeRequest` and then increments the Status
  State's request counter once per tick.
-/

/-- OTel status code (`codes.Ok` / `codes.Error` / unset). -/
inductive Code where
  | unset
  | ok
  | error
deriving DecidableEq, Repr

/-- zap log severity levels used by the program. -/
inductive Level where
  | debug
  | info
  | warn
  | error
deriving DecidableEq, Repr

/-- One observable span or log operation, tagged with the span's name.
`endSpan` is emitted where the Go code runs `span.End()` (for a
`defer span.End()`, at function return). -/
inductive Event where
  | startSpan (name : String) (attrs : List (String × String))
  | recordError (span : String) (err : String)
  | setStatus (span : String) (code : Code) (msg : String)
  | setAttributes (span : String)
  | endSpan (name : String)
  | log (level : Level) (msg : String)
deriving DecidableEq, Repr

/-- Go errors are modelled by their message string (`err.Error()`);
`fmt.Errorf("p: %w", err)` produces the message `"p: " ++ err.Error()`. -/
abbrev GoError := String

/- ----------------------------------------------------------------- -/
/- pkg/health/health.go                                              -/
/- ----------------------------------------------------------------- -/

/-- Two's-complement wraparound of a signed 64-bit integer, as performed by
`sync/atomic.AddInt64` on overflow. -/
def wrap64 (x : Int) : Int :=
  (x + 2 ^ 63) % 2 ^ 64 - 2 ^ 63

/-- The `health.Server` shared state: `ready int32` (stored as 0/1) and
`requests int64`, both accessed only through atomic operations
(`health.go`, struct `Server`). -/
structure HealthState where
  ready : Int
  requests : Int
deriving DecidableEq, Repr

/-- `health.New`: both counters start at their zero values. -/
def healthNew : HealthState := { ready := 0, requests := 0 }

/-- `Server.SetReady` (`health.go` lines 52-58): stores 1 when `ready` is
true, 0 otherwise. -/
def SetReady (s : HealthState) (ready : Bool) : HealthState :=
  if ready then { s with ready := 1 } else { s with ready := 0 }

/-- `Server.IncrementRequests` (`health.go` lines 61-63):
`atomic.AddInt64(&s.requests, 1)`. -/
def IncrementRequests (s : HealthState) : HealthState :=
  { s with requests := wrap64 (s.requests + 1) }

/-- An HTTP response produced by a status-server handler. -/
structure HttpResponse where
  statusCode : Int
  contentType : String
  body : String
deriving DecidableEq, Repr

/-- Body written by `readyHandler` when `ready == 1`. -/
def readyBody (ts : String) : String :=
  "\x7b\"status\":\"ready\",\"timestamp\":\"" ++ ts ++ "\"\x7d"

/-- Body written by `readyHandler` when `ready != 1`. -/
def notReadyBody (ts : String) : String :=
  "\x7b\"status\":\"not_ready\",\"timestamp\":\"" ++ ts ++ "\"\x7d"

/-- `Server.readyHandler` (`health.go` lines 82-102): loads the atomic
`ready` flag; 200 with the `ready` body when it equals 1, else 503 with the
`not_ready` body.  The RFC3339 timestamp is a parameter. -/
def readyHandler (s : HealthState) (ts : String) : HttpResponse :=
  if s.ready = 1 then
    { statusCode := 200, contentType := "application/json", body := readyBody ts }
  else
    { statusCode := 503, contentType := "application/json", body := notReadyBody ts }

/-- The plain-text metrics dump format of `metricsHandler`. -/
def metricsBody (requests ready : Int) : String :=
  "# HTTP Client Metrics\nhttp_requests_total " ++ toString requests ++
    "\nservice_ready " ++ toString ready ++ "\n"

/-- `Server.metricsHandler` (`health.go` lines 105-120): loads both atomics
and writes 200, `text/plain`, and the two-counter dump. -/
def metricsHandler (s : HealthState) : HttpResponse :=
  { statusCode := 200, contentType := "text/plain",
    body := metricsBody s.requests s.ready }

/- ----------------------------------------------------------------- -/
/- pkg/httpclient/client.go                                          -/
/- ----------------------------------------------------------------- -/

/-- The parts of an `*http.Request` the instrumented transport reads. -/
structure Request where
  method : String
  url : String
  host : String
  port : String
  scheme : String
deriving DecidableEq, Repr

/-- The parts of an `*http.Response` the client and transport read. -/
structure Response where
  statusCode : Int
  contentLength : Int
deriving DecidableEq, Repr

/-- Outcomes of the two external calls one `RoundTrip` makes:
`net.LookupIP` (the resolved addresses) and `t.base.RoundTrip`. -/
structure NetEnv where
  dnsResult : Except GoError (List String)
  baseResult : Except GoError Response
deriving Repr

/-- Port defaulting in `RoundTrip` (`client.go` lines 127-134): an empty
`req.URL.Port()` defaults to 443 for https and 80 otherwise. -/
def effectivePort (req : Request) : String :=
  if req.port = "" then (if req.scheme = "https" then "443" else "80")
  else req.port

/-- The `dns.resolve` span of `RoundTrip` (`client.go` lines 136-156):
start, then on `net.LookupIP` failure record the error and set Error, on
success set the address/duration attributes and Ok; end unconditionally. -/
def dnsPhase (host : String) (dnsResult : Except GoError (List String)) :
    List Event :=
  [.startSpan "dns.resolve" [("dns.hostname", host)]] ++
    (match dnsResult with
      | .error e => [.recordError "dns.resolve" e, .setStatus "dns.resolve" .error e]
      | .ok _ips => [.setAttributes "dns.resolve", .setStatus "dns.resolve" .ok ""]) ++
    [.endSpan "dns.resolve"]

/-- `instrumentedTransport.RoundTrip` (`client.go` lines 113-196): opens
`http.transport`, runs the diagnostic DNS phase, opens `tcp.connect`,
delegates to the base round trip, then on error marks both `tcp.connect`
and `http.transport` Error with the error recorded on both and returns the
error unchanged; on success marks `tcp.connect` Ok, annotates
`http.transport`, and marks it Error with message `HTTP <code>` when the
status is >= 400 and Ok otherwise, returning the response with nil error.
`tcp.connect` ends before the deferred `http.transport` end. -/
def RoundTrip (env : NetEnv) (req : Request) :
    Except GoError Response × List Event :=
  match env.baseResult with
  | .error e =>
      (.error e,
        [.startSpan "http.transport"
            [("http.method", req.method), ("http.url", req.url)]] ++
          dnsPhase req.host env.dnsResult ++
          [.startSpan "tcp.connect"
              [("net.peer.name", req.host), ("net.peer.port", effectivePort req)],
            .recordError "tcp.connect" e, .setStatus "tcp.connect" .error e,
            .recordError "http.transport" e, .setStatus "http.transport" .error e,
            .endSpan "tcp.connect", .endSpan "http.transport"])
  | .ok resp =>
      (.ok resp,
        [.startSpan "http.transport"
            [("http.method", req.method), ("http.url", req.url)]] ++
          dnsPhase req.host env.dnsResult ++
          [.startSpan "tcp.connect"
              [("net.peer.name", req.host), ("net.peer.port", effectivePort req)],
            .setAttributes "tcp.connect", .setStatus "tcp.connect" .ok "",
            .setAttributes "http.transport"] ++
          (if resp.statusCode ≥ 400 then
            [.setStatus "http.transport" .error ("HTTP " ++ toString resp.statusCode)]
          else
            [.setStatus "http.transport" .ok ""]) ++
          [.endSpan "tcp.connect", .endSpan "http.transport"])

/-- `Client.Get` (`client.go` lines 52-103): opens `http.get`; on request
construction failure records the error, marks the span Error and returns
`failed to create request: <err>`; otherwise delegates to the round trip
(via `httpClient.Do`, whose transport is the instrumented transport).  On
network failure records the error, marks Error, logs at error severity and
returns `failed to make request: <err>`; on success annotates the span,
then marks Error/logs warn for status >= 400 and marks Ok/logs info
otherwise, returning the response with nil error.  The `http.get` end is
deferred, so it closes last. -/
def Get (url : String) (reqBuild : Except GoError Request) (env : NetEnv) :
    Except GoError Response × List Event :=
  match reqBuild with
  | .error e =>
      (.error ("failed to create request: " ++ e),
        [.startSpan "http.get" [("http.method", "GET"), ("http.url", url)],
          .recordError "http.get" e,
          .setStatus "http.get" .error e, .endSpan "http.get"])
  | .ok req =>
      match RoundTrip env req with
      | (.error e, innerEvs) =>
          (.error ("failed to make request: " ++ e),
            [.startSpan "http.get" [("http.method", "GET"), ("http.url", url)]] ++
              innerEvs ++
              [.recordError "http.get" e, .setStatus "http.get" .error e,
                .log .error "HTTP request failed", .endSpan "http.get"])
      | (.ok resp, innerEvs) =>
          (.ok resp,
            [.startSpan "http.get" [("http.method", "GET"), ("http.url", url)]] ++
              innerEvs ++
              [.setAttributes "http.get"] ++
              (if resp.statusCode ≥ 400 then
                [.setStatus "http.get" .error ("HTTP " ++ toString resp.statusCode),
                  .log .warn "HTTP request returned error status"]
              else
                [.setStatus "http.get" .ok "",
                  .log .info "HTTP request completed successfully"]) ++
              [.endSpan "http.get"])

/-- The status a span ends up with: the last `setStatus` emitted for it (in
every path of this program each span receives at most one `setStatus`). -/
def finalStatus (name : String) (evs : List Event) : Option (Code × String) :=
  evs.foldl
    (fun acc e =>
      match e with
      | .setStatus n c m => if n = name then some (c, m) else acc
      | _ => acc)
    none

/- ----------------------------------------------------------------- -/
/- main.go: makeRequest and the scheduler loop                       -/
/- ----------------------------------------------------------------- -/

/-- The `request.cycle` root-span start of `makeRequest` (`main.go` lines
143-149), with its four start attributes. -/
def cycleStart (serviceName url : String) (intervalMs n : Int) : Event :=
  .startSpan "request.cycle"
    [("service.name", serviceName), ("request.target_url", url),
      ("request.interval_ms", toString intervalMs),
      ("request.count", toString n)]

/-- `makeRequest` (`main.go` lines 141-220): opens `request.cycle`, calls
`client.Get`; on a Get error records it, marks the root span Error and logs
`Request failed` at error severity; on a body-read error likewise with
`Failed to read response body`; otherwise annotates the root span and marks
it Error with `HTTP <code>` plus a warn log for status >= 400, or Ok with
an info log for status < 400.  The deferred `span.End()` closes the root
span last on every path.  `bodyRead` is the outcome of `io.ReadAll`. -/
def makeRequest (serviceName url : String) (intervalMs n : Int)
    (reqBuild : Except GoError Request) (env : NetEnv)
    (bodyRead : Except GoError String) : List Event :=
  match Get url reqBuild env with
  | (.error e, getEvs) =>
      [cycleStart serviceName url intervalMs n] ++ getEvs ++
        [.recordError "request.cycle" e, .setStatus "request.cycle" .error e,
          .log .error "Request failed", .endSpan "request.cycle"]
  | (.ok resp, getEvs) =>
      match bodyRead with
      | .error e =>
          [cycleStart serviceName url intervalMs n] ++ getEvs ++
            [.recordError "request.cycle" e,
              .setStatus "request.cycle" .error e,
              .log .error "Failed to read response body",
              .endSpan "request.cycle"]
      | .ok _body =>
          [cycleStart serviceName url intervalMs n] ++ getEvs ++
            [.setAttributes "request.cycle"] ++
            (if resp.statusCode ≥ 400 then
              [.setStatus "request.cycle" .error ("HTTP " ++ toString resp.statusCode),
                .setAttributes "request.cycle",
                .log .warn "HTTP request returned error status"]
            else
              [.setStatus "request.cycle" .ok "",
                .log .info "HTTP request completed successfully"]) ++
            [.endSpan "request.cycle"]

/-- The per-run scheduler configuration (command-line flags). -/
structure SchedConfig where
  serviceName : String
  targetURL : String
  intervalMs : Int
deriving Repr

/-- The external outcomes one scheduler tick depends on: request
construction, the network environment, and the body read. -/
structure TickEnv where
  reqBuild : Except GoError Request
  net : NetEnv
  bodyRead : Except GoError String
deriving Repr

/-- The event trace of the tick numbered `n`. -/
def tickTrace (cfg : SchedConfig) (n : Int) (te : TickEnv) : List Event :=
  makeRequest cfg.serviceName cfg.targetURL cfg.intervalMs n
    te.reqBuild te.net te.bodyRead

/-- The scheduler-visible state: `main`'s local `requestCount` (a 64-bit
`int`), the shared health server state, and the events emitted so far. -/
structure SchedState where
  tickCount : Int
  health : HealthState
  events : List Event
deriving Repr

/-- One iteration of the `ticker.C` branch of `main`'s select loop
(`main.go` lines 133-137): `requestCount++`, then `makeRequest`, then
`healthServer.IncrementRequests()` — the counter increment happens
unconditionally after the probe attempt completes, whatever its outcome. -/
def schedTick (cfg : SchedConfig) (s : SchedState) (te : TickEnv) : SchedState :=
  let n := wrap64 (s.tickCount + 1)
  { tickCount := n,
    health := IncrementRequests s.health,
    events := s.events ++ tickTrace cfg n te }

/-- The sequential scheduler loop: the ticks that fire before the
cancellation signal arrives are `envs`, processed strictly one after
another (the loop body is not concurrent; at most one probe is in
flight). -/
def runSched (cfg : SchedConfig) (s : SchedState) (envs : List TickEnv) :
    SchedState :=
  envs.foldl (schedTick cfg) s

/-- The state at process start: zero ticks, fresh health state, no events
(`health.New` plus `requestCount := 0`). -/
def initSched : SchedState :=
  { tickCount := 0, health := healthNew, events := [] }

/-- The concatenated traces the loop emits for ticks `n+1, n+2, ...`. -/
def loopTraces (cfg : SchedConfig) (n : Int) : List TickEnv → List Event
  | [] => []
  | te :: rest =>
      tickTrace cfg (wrap64 (n + 1)) te ++ loopTraces cfg (wrap64 (n + 1)) rest

/-- `closesBefore a b evs`: some `endSpan a` occurs strictly earlier in the
trace than some `endSpan b` (every span in this program ends at most once
per cycle, so this reads as: span `a` closes strictly before span `b`). -/
def closesBefore (a b : String) : List Event → Prop
  | [] => False
  | e :: rest => (e = .endSpan a ∧ Event.endSpan b ∈ rest) ∨ closesBefore a b rest

/- Sample concrete inputs used by the witness theorems. -/

/-- A sample well-formed request to `https://h/x`. -/
def reqSample : Request :=
  { method := "GET", url := "https://h/x", host := "h", port := "",
    scheme := "https" }

/-- Sample scheduler configuration (default flag values). -/
def cfgSample : SchedConfig :=
  { serviceName := "http-client", targetURL := "https://h/x",
    intervalMs := 5000 }

/-- A tick whose probe succeeds with status 200 and body `test response`. -/
def probeOk : TickEnv :=
  { reqBuild := .ok reqSample,
    net := { dnsResult := .ok ["10.0.0.1"],
             baseResult := .ok { statusCode := 200, contentLength := 13 } },
    bodyRead := .ok "test response" }

/-- A tick whose probe gets an HTTP 500 response. -/
def probe500 : TickEnv :=
  { reqBuild := .ok reqSample,
    net := { dnsResult := .ok ["10.0.0.1"],
             baseResult := .ok { statusCode := 500, contentLength := 21 } },
    bodyRead := .ok "internal server error" }

/-- A tick whose probe fails to connect. -/
def probeConnFail : TickEnv :=
  { reqBuild := .ok reqSample,
    net := { dnsResult := .error "no such host",
             baseResult := .error "dial tcp: connection refused" },
    bodyRead := .error "" }

/- ----------------------------------------------------------------- -/
/- Helper lemmas                                                     -/
/- ----------------------------------------------------------------- -/

theorem ready_foldl (history : List Bool) (s : HealthState) :
    (history.foldl SetReady s).ready =
      match history.getLast? with
      | some true => 1
      | some false => 0
      | none => s.ready := by
  induction history using List.reverseRecOn with
  | nil => rfl
  | append_singleton l b _ih =>
      rw [List.foldl_append, List.getLast?_concat]
      cases b <;> simp [SetReady]

theorem roundTrip_result (env : NetEnv) (req : Request) :
    (RoundTrip env req).1 = env.baseResult := by
  rcases hb : env.baseResult with e | resp <;> simp [RoundTrip, hb]

theorem append_ne_self (p : String) (hp : p.length ≠ 0) (x : String) :
    p ++ x ≠ x := by
  intro hx
  have : (p ++ x).length = x.length := by rw [hx]
  rw [String.length_append] at this
  omega

theorem wrap64_eq (x : Int) (h1 : -(2 ^ 63) ≤ x) (h2 : x < 2 ^ 63) :
    wrap64 x = x := by
  have h3 : (0 : Int) ≤ x + 2 ^ 63 := by omega
  have h4 : x + 2 ^ 63 < 2 ^ 64 := by omega
  unfold wrap64
  rw [Int.emod_eq_of_lt h3 h4]
  ring

theorem incrementRequests_requests (h : HealthState) (h0 : 0 ≤ h.requests)
    (h1 : h.requests + 1 < 2 ^ 63) :
    (IncrementRequests h).requests = h.requests + 1 := by
  simp only [IncrementRequests]
  exact wrap64_eq _ (by omega) h1

theorem runSched_requests (cfg : SchedConfig) (envs : List TickEnv)
    (s : SchedState) (h0 : 0 ≤ s.health.requests)
    (hN : s.health.requests + envs.length < 2 ^ 63) :
    (runSched cfg s envs).health.requests =
      s.health.requests + envs.length := by
  induction envs generalizing s with
  | nil => simp [runSched]
  | cons te rest ih =>
      have hlen : ((te :: rest).length : Int) = (rest.length : Int) + 1 := by
        push_cast [List.length_cons]
        ring
      rw [hlen] at hN
      have hstep : (schedTick cfg s te).health.requests =
          s.health.requests + 1 := by
        have : (schedTick cfg s te).health = IncrementRequests s.health := rfl
        rw [this]
        exact incrementRequests_requests s.health h0 (by omega)
      have hrun : runSched cfg s (te :: rest) =
          runSched cfg (schedTick cfg s te) rest := rfl
      rw [hrun, ih (schedTick cfg s te) (by omega) (by rw [hstep]; omega),
        hstep, hlen]
      ring

theorem runSched_events (cfg : SchedConfig) (envs : List TickEnv)
    (s : SchedState) :
    (runSched cfg s envs).events = s.events ++ loopTraces cfg s.tickCount envs := by
  induction envs generalizing s with
  | nil => simp [runSched, loopTraces]
  | cons te rest ih =>
      have hrun : runSched cfg s (te :: rest) =
          runSched cfg (schedTick cfg s te) rest := rfl
      rw [hrun, ih]
      simp [schedTick, loopTraces, List.append_assoc]

theorem iterate_increment (m : ℕ) (h : HealthState) (h0 : 0 ≤ h.requests)
    (hm : h.requests + m < 2 ^ 63) :
    (IncrementRequests^[m] h).requests = h.requests + m := by
  induction m generalizing h with
  | zero => simp
  | succ k ih =>
      rw [Function.iterate_succ_apply]
      have hstep : (IncrementRequests h).requests = h.requests + 1 :=
        incrementRequests_requests h h0 (by push_cast at hm; omega)
      rw [ih (IncrementRequests h) (by omega) (by rw [hstep]; push_cast at hm ⊢; omega),
        hstep]
      push_cast
      ring

theorem tickTrace_head (cfg : SchedConfig) (n : Int) (te : TickEnv) :
    (tickTrace cfg n te).head? =
      some (cycleStart cfg.serviceName cfg.targetURL cfg.intervalMs n) := by
  rcases hreq : te.reqBuild with e | req
  · simp [tickTrace, makeRequest, Get, hreq]
  · rcases hb : te.net.baseResult with be | resp
    · rcases hdns : te.net.dnsResult with de | ips <;>
        simp [tickTrace, makeRequest, Get, RoundTrip, dnsPhase, hreq, hb, hdns]
    · rcases hbody : te.bodyRead with eb | sb <;>
        rcases hdns : te.net.dnsResult with de | ips <;>
        by_cases h400 : resp.statusCode ≥ 400 <;>
        simp [tickTrace, makeRequest, Get, RoundTrip, dnsPhase, hreq, hb,
          hdns, hbody, h400]

theorem tickTrace_last (cfg : SchedConfig) (n : Int) (te : TickEnv) :
    (tickTrace cfg n te).getLast? = some (.endSpan "request.cycle") := by
  rcases hreq : te.reqBuild with e | req
  · simp [tickTrace, makeRequest, Get, hreq]
  · rcases hb : te.net.baseResult with be | resp
    · rcases hdns : te.net.dnsResult with de | ips <;>
        simp [tickTrace, makeRequest, Get, RoundTrip, dnsPhase, hreq, hb, hdns]
    · rcases hbody : te.bodyRead with eb | sb <;>
        rcases hdns : te.net.dnsResult with de | ips <;>
        by_cases h400 : resp.statusCode ≥ 400 <;>
        simp [tickTrace, makeRequest, Get, RoundTrip, dnsPhase, hreq, hb,
          hdns, hbody, h400]

/- ----------------------------------------------------------------- -/
/- Claim theorems                                                    -/
/- ----------------------------------------------------------------- -/

/-- C2: the `/ready` handler returns 200 with the `ready` JSON body exactly
when the most recent `SetReady` call in the history passed `true`; with no
call, or a most recent `SetReady(false)`, it returns 503 with the
`not_ready` body. -/
theorem c2_readiness_gating (history : List Bool) (ts : String) :
    readyHandler (history.foldl SetReady healthNew) ts =
      if history.getLast? = some true then
        { statusCode := 200, contentType := "application/json",
          body := readyBody ts }
      else
        { statusCode := 503, contentType := "application/json",
          body := notReadyBody ts } := by
  have h := ready_foldl history healthNew
  rcases hl : history.getLast? with _ | b
  · rw [hl] at h
    have h0 : (history.foldl SetReady healthNew).ready = 0 := h
    simp [readyHandler, h0]
  · cases b
    · rw [hl] at h
      simp [readyHandler, h]
    · rw [hl] at h
      simp [readyHandler, h]

/-- C8: `/metrics` always answers 200 with `text/plain` and the exact
two-line counter dump; in particular after two `IncrementRequests` and a
`SetReady true` the body is the dump with `http_requests_total 2` and
`service_ready 1`, each appearing as a substring. -/
theorem c8_metrics_dump (s : HealthState) :
    (metricsHandler s).statusCode = 200 ∧
    (metricsHandler s).contentType = "text/plain" ∧
    (metricsHandler s).body =
      "# HTTP Client Metrics\nhttp_requests_total " ++ toString s.requests ++
        "\nservice_ready " ++ toString s.ready ++ "\n" ∧
    (metricsHandler (SetReady (IncrementRequests (IncrementRequests healthNew)) true)).body =
      "# HTTP Client Metrics\nhttp_requests_total 2\nservice_ready 1\n" ∧
    (∃ x y,
      (metricsHandler (SetReady (IncrementRequests (IncrementRequests healthNew)) true)).body =
        x ++ "http_requests_total 2" ++ y) ∧
    (∃ x y,
      (metricsHandler (SetReady (IncrementRequests (IncrementRequests healthNew)) true)).body =
        x ++ "service_ready 1" ++ y) := by
  refine ⟨rfl, rfl, rfl, by decide, ⟨"# HTTP Client Metrics\n", "\nservice_ready 1\n", by decide⟩,
    ⟨"# HTTP Client Metrics\nhttp_requests_total 2\n", "\n", by decide⟩⟩

/-- C9: `SetReady` is idempotent — repeating a call with the same argument
leaves the whole state exactly as after one call, and a `SetReady` call
never changes the request counter. -/
theorem c9_setReady_idempotent (s : HealthState) (b : Bool) :
    SetReady (SetReady s b) b = SetReady s b ∧
    (SetReady s b).requests = s.requests := by
  cases b <;> simp [SetReady]

/-- C3: when the base round trip succeeds, `RoundTrip` returns the response
with nil error; for a status >= 400 the `http.transport` span is still set
to Error with message `HTTP <code>` (containing the status code), while for
a status < 400 both `tcp.connect` and `http.transport` are marked Ok. -/
theorem c3_transport_http_error_status (env : NetEnv) (req : Request)
    (resp : Response) (hbase : env.baseResult = .ok resp) :
    (RoundTrip env req).1 = .ok resp ∧
    (resp.statusCode ≥ 400 →
      finalStatus "http.transport" (RoundTrip env req).2 =
        some (Code.error, "HTTP " ++ toString resp.statusCode)) ∧
    (resp.statusCode < 400 →
      finalStatus "http.transport" (RoundTrip env req).2 = some (Code.ok, "") ∧
      finalStatus "tcp.connect" (RoundTrip env req).2 = some (Code.ok, "")) := by
  refine ⟨?_, ?_, ?_⟩
  · simp [RoundTrip, hbase]
  · intro h400
    rcases env.dnsResult with e | ips <;>
      simp [RoundTrip, hbase, dnsPhase, finalStatus, h400]
  · intro hlt
    have h400 : ¬ resp.statusCode ≥ 400 := by omega
    rcases env.dnsResult with e | ips <;>
      simp [RoundTrip, hbase, dnsPhase, finalStatus, h400]

theorem c3_transport_http_error_status_witness :
    (RoundTrip ⟨.ok ["10.0.0.1"], .ok ⟨404, 7⟩⟩ reqSample).1 = .ok ⟨404, 7⟩ ∧
    finalStatus "http.transport"
        (RoundTrip ⟨.ok ["10.0.0.1"], .ok ⟨404, 7⟩⟩ reqSample).2 =
      some (Code.error, "HTTP 404") := by
  have h := c3_transport_http_error_status
    ⟨.ok ["10.0.0.1"], .ok ⟨404, 7⟩⟩ reqSample ⟨404, 7⟩ rfl
  exact ⟨h.1, h.2.1 (by decide)⟩

/-- C4: when the base round trip fails with error `e`, both `tcp.connect`
and `http.transport` record `e` and are set to Error with message `e`, and
`RoundTrip` returns exactly `e`, unwrapped. -/
theorem c4_transport_error_propagation (env : NetEnv) (req : Request)
    (e : GoError) (hbase : env.baseResult = .error e) :
    (RoundTrip env req).1 = .error e ∧
    finalStatus "tcp.connect" (RoundTrip env req).2 = some (Code.error, e) ∧
    finalStatus "http.transport" (RoundTrip env req).2 = some (Code.error, e) ∧
    Event.recordError "tcp.connect" e ∈ (RoundTrip env req).2 ∧
    Event.recordError "http.transport" e ∈ (RoundTrip env req).2 := by
  rcases env.dnsResult with de | ips <;>
    simp [RoundTrip, hbase, dnsPhase, finalStatus]

theorem c4_transport_error_propagation_witness :
    (RoundTrip ⟨.ok ["10.0.0.1"], .error "connection refused"⟩ reqSample).1 =
      .error "connection refused" ∧
    finalStatus "http.transport"
        (RoundTrip ⟨.ok ["10.0.0.1"], .error "connection refused"⟩ reqSample).2 =
      some (Code.error, "connection refused") := by
  have h := c4_transport_error_propagation
    ⟨.ok ["10.0.0.1"], .error "connection refused"⟩ reqSample
    "connection refused" rfl
  exact ⟨h.1, h.2.2.1⟩

/-- C7: when the diagnostic DNS lookup fails with `e`, the `dns.resolve`
span records `e`, is set to Error, and is ended; `tcp.connect` is still
opened, and the result of `RoundTrip` is always exactly the base round
trip's result, so a DNS failure alone never makes `RoundTrip` return an
error. -/
theorem c7_dns_failure_not_fatal (env : NetEnv) (req : Request)
    (e : GoError) (hdns : env.dnsResult = .error e) :
    Event.recordError "dns.resolve" e ∈ (RoundTrip env req).2 ∧
    finalStatus "dns.resolve" (RoundTrip env req).2 = some (Code.error, e) ∧
    Event.endSpan "dns.resolve" ∈ (RoundTrip env req).2 ∧
    Event.startSpan "tcp.connect"
        [("net.peer.name", req.host), ("net.peer.port", effectivePort req)] ∈
      (RoundTrip env req).2 ∧
    (RoundTrip env req).1 = env.baseResult := by
  rcases hb : env.baseResult with be | resp
  · simp [RoundTrip, hb, hdns, dnsPhase, finalStatus]
  · by_cases h400 : resp.statusCode ≥ 400 <;>
      simp [RoundTrip, hb, hdns, dnsPhase, finalStatus, h400]

theorem c7_dns_failure_not_fatal_witness :
    finalStatus "dns.resolve"
        (RoundTrip ⟨.error "no such host", .ok ⟨200, 13⟩⟩ reqSample).2 =
      some (Code.error, "no such host") ∧
    (RoundTrip ⟨.error "no such host", .ok ⟨200, 13⟩⟩ reqSample).1 =
      .ok ⟨200, 13⟩ := by
  have h := c7_dns_failure_not_fatal
    ⟨.error "no such host", .ok ⟨200, 13⟩⟩ reqSample "no such host" rfl
  exact ⟨h.2.1, h.2.2.2.2⟩

/-- C10: a failing `Get` never returns the underlying error unchanged: a
request-construction failure `e` comes back as
`failed to create request: <e>` and a network failure `e` as
`failed to make request: <e>`, and neither equals the bare `e`. -/
theorem c10_get_wraps_errors (url : String) (env : NetEnv) (req : Request)
    (e : GoError) :
    ((Get url (.error e) env).1 = .error ("failed to create request: " ++ e) ∧
      (Get url (.error e) env).1 ≠ .error e) ∧
    (env.baseResult = .error e →
      (Get url (.ok req) env).1 = .error ("failed to make request: " ++ e) ∧
      (Get url (.ok req) env).1 ≠ .error e) := by
  constructor
  · constructor
    · simp [Get]
    · simp only [Get]
      intro hcontra
      exact append_ne_self "failed to create request: " (by decide) e (by
        simpa using hcontra)
  · intro hbase
    have hres : (RoundTrip env req).1 = .error e := by
      rw [roundTrip_result, hbase]
    rcases hrt : RoundTrip env req with ⟨res, evs⟩
    rw [hrt] at hres
    simp only at hres
    subst hres
    constructor
    · simp [Get, hrt]
    · simp only [Get, hrt]
      intro hcontra
      exact append_ne_self "failed to make request: " (by decide) e (by
        simpa using hcontra)

theorem c10_get_wraps_errors_witness :
    (Get "https://h/x" (.ok reqSample)
        ⟨.ok ["10.0.0.1"], .error "dial tcp: timeout"⟩).1 =
      .error ("failed to make request: " ++ "dial tcp: timeout") ∧
    (Get "https://h/x" (.ok reqSample)
        ⟨.ok ["10.0.0.1"], .error "dial tcp: timeout"⟩).1 ≠
      .error "dial tcp: timeout" := by
  exact (c10_get_wraps_errors "https://h/x"
    ⟨.ok ["10.0.0.1"], .error "dial tcp: timeout"⟩
    reqSample "dial tcp: timeout").2 rfl

/-- C1: starting from the initial state, running any sequence of `N`
completed ticks (whatever each probe's outcome) leaves the Status State's
request counter at exactly `N` (for any `N` below the `int64` bound);
each tick appends the probe's trace and increments the counter by exactly
1, and any number `m` of serialized atomic increments — the model of
concurrent lock-free increments, each being one indivisible step — sums to
exactly `m`. -/
theorem c1_monotonic_counting (cfg : SchedConfig) (envs : List TickEnv)
    (hN : (envs.length : Int) < 2 ^ 63) :
    (runSched cfg initSched envs).health.requests = envs.length ∧
    (∀ (s : SchedState) (te : TickEnv),
      0 ≤ s.health.requests → s.health.requests + 1 < 2 ^ 63 →
      (schedTick cfg s te).health.requests = s.health.requests + 1 ∧
      (schedTick cfg s te).events =
        s.events ++ tickTrace cfg (wrap64 (s.tickCount + 1)) te) ∧
    (∀ m : ℕ, (m : Int) < 2 ^ 63 →
      (IncrementRequests^[m] healthNew).requests = m) := by
  refine ⟨?_, ?_, ?_⟩
  · have h := runSched_requests cfg envs initSched (by simp [initSched, healthNew])
      (by simpa [initSched, healthNew] using hN)
    simpa [initSched, healthNew] using h
  · intro s te h0 h1
    refine ⟨?_, rfl⟩
    have : (schedTick cfg s te).health = IncrementRequests s.health := rfl
    rw [this]
    exact incrementRequests_requests s.health h0 h1
  · intro m hm
    have h := iterate_increment m healthNew (by simp [healthNew])
      (by simpa [healthNew] using hm)
    simpa [healthNew] using h

theorem c1_monotonic_counting_witness :
    (runSched cfgSample initSched [probeOk, probe500, probeConnFail]).health.requests = 3 := by
  have h := c1_monotonic_counting cfgSample [probeOk, probe500, probeConnFail]
    (by decide)
  simpa using h.1

/-- C5: in one tick, a 200 response leaves the `request.cycle` root span Ok
and emits an info log; a 500 response leaves it Error (message `HTTP 500`)
and emits a warn log; a connection failure leaves it Error and emits an
error log; and the scheduler loop always processes every scheduled tick,
appending each tick's trace in turn, whatever the outcomes were. -/
theorem c5_status_classification (cfg : SchedConfig) (n : Int) (te : TickEnv)
    (req : Request) (resp : Response) (body : String)
    (hreq : te.reqBuild = .ok req) :
    (te.net.baseResult = .ok resp → te.bodyRead = .ok body →
      (resp.statusCode = 200 →
        finalStatus "request.cycle" (tickTrace cfg n te) = some (Code.ok, "") ∧
        Event.log .info "HTTP request completed successfully" ∈ tickTrace cfg n te) ∧
      (resp.statusCode = 500 →
        finalStatus "request.cycle" (tickTrace cfg n te) =
          some (Code.error, "HTTP 500") ∧
        Event.log .warn "HTTP request returned error status" ∈ tickTrace cfg n te)) ∧
    (∀ e, te.net.baseResult = .error e →
      finalStatus "request.cycle" (tickTrace cfg n te) =
        some (Code.error, "failed to make request: " ++ e) ∧
      Event.log .error "Request failed" ∈ tickTrace cfg n te) ∧
    (∀ (s : SchedState) (envs : List TickEnv),
      (runSched cfg s envs).events = s.events ++ loopTraces cfg s.tickCount envs) := by
  refine ⟨?_, ?_, ?_⟩
  · intro hbase hbody
    constructor
    · intro h200
      have h400 : ¬ resp.statusCode ≥ 400 := by omega
      rcases hdns : te.net.dnsResult with de | ips <;>
        simp [tickTrace, makeRequest, Get, RoundTrip, dnsPhase, finalStatus,
          hreq, hbase, hbody, hdns, h400]
    · intro h500
      have h400 : resp.statusCode ≥ 400 := by omega
      rcases hdns : te.net.dnsResult with de | ips <;>
        simp [tickTrace, makeRequest, Get, RoundTrip, dnsPhase, finalStatus,
          hreq, hbase, hbody, hdns, h400, h500] <;>
        decide
  · intro e hbase
    rcases hdns : te.net.dnsResult with de | ips <;>
      simp [tickTrace, makeRequest, Get, RoundTrip, dnsPhase, finalStatus,
        hreq, hbase, hdns]
  · intro s envs
    exact runSched_events cfg envs s

theorem c5_status_classification_witness :
    finalStatus "request.cycle" (tickTrace cfgSample 1 probeOk) = some (Code.ok, "") ∧
    Event.log .info "HTTP request completed successfully" ∈ tickTrace cfgSample 1 probeOk := by
  exact ((c5_status_classification cfgSample 1 probeOk reqSample
    ⟨200, 13⟩ "test response" rfl).1 rfl rfl).1 rfl

/-- C6: in any completed tick whose request was constructed, `dns.resolve`
and `tcp.connect` close strictly before `http.transport`, which closes
strictly before `http.get`, which closes strictly before `request.cycle`;
every tick's trace opens with the `request.cycle` start and closes with the
`request.cycle` end, and two consecutive scheduler ticks append their
traces strictly one after the other, so cycle `N`'s root span is fully
closed before cycle `N+1`'s root span opens. -/
theorem c6_span_nesting (cfg : SchedConfig) (n : Int) (te : TickEnv)
    (req : Request) (hreq : te.reqBuild = .ok req) :
    closesBefore "dns.resolve" "http.transport" (tickTrace cfg n te) ∧
    closesBefore "tcp.connect" "http.transport" (tickTrace cfg n te) ∧
    closesBefore "http.transport" "http.get" (tickTrace cfg n te) ∧
    closesBefore "http.get" "request.cycle" (tickTrace cfg n te) ∧
    (∀ (m : Int) (te' : TickEnv),
      (tickTrace cfg m te').head? =
        some (cycleStart cfg.serviceName cfg.targetURL cfg.intervalMs m) ∧
      (tickTrace cfg m te').getLast? = some (.endSpan "request.cycle")) ∧
    (∀ (s : SchedState) (te1 te2 : TickEnv),
      (schedTick cfg (schedTick cfg s te1) te2).events =
        s.events ++ tickTrace cfg (wrap64 (s.tickCount + 1)) te1 ++
          tickTrace cfg (wrap64 (wrap64 (s.tickCount + 1) + 1)) te2) := by
  have hparts : closesBefore "dns.resolve" "http.transport" (tickTrace cfg n te) ∧
      closesBefore "tcp.connect" "http.transport" (tickTrace cfg n te) ∧
      closesBefore "http.transport" "http.get" (tickTrace cfg n te) ∧
      closesBefore "http.get" "request.cycle" (tickTrace cfg n te) := by
    rcases hb : te.net.baseResult with be | resp
    · rcases hdns : te.net.dnsResult with de | ips <;>
        simp [tickTrace, makeRequest, Get, RoundTrip, dnsPhase, closesBefore,
          hreq, hb, hdns]
    · rcases hbody : te.bodyRead with eb | sb <;>
        rcases hdns : te.net.dnsResult with de | ips <;>
        by_cases h400 : resp.statusCode ≥ 400 <;>
        simp [tickTrace, makeRequest, Get, RoundTrip, dnsPhase, closesBefore,
          hreq, hb, hdns, hbody, h400]
  refine ⟨hparts.1, hparts.2.1, hparts.2.2.1, hparts.2.2.2, ?_, ?_⟩
  · intro m te'
    exact ⟨tickTrace_head cfg m te', tickTrace_last cfg m te'⟩
  · intro s te1 te2
    simp [schedTick, List.append_assoc]

theorem c6_span_nesting_witness :
    closesBefore "dns.resolve" "http.transport" (tickTrace cfgSample 1 probeOk) ∧
    closesBefore "tcp.connect" "http.transport" (tickTrace cfgSample 1 probeOk) ∧
    closesBefore "http.transport" "http.get" (tickTrace cfgSample 1 probeOk) ∧
    closesBefore "http.get" "request.cycle" (tickTrace cfgSample 1 probeOk) ∧
    (tickTrace cfgSample 1 probeOk).getLast? = some (.endSpan "request.cycle") := by
  have h := c6_span_nesting cfgSample 1 probeOk reqSample rfl
  exact ⟨h.1, h.2.1, h.2.2.1, h.2.2.2.1, (h.2.2.2.2.1 1 probeOk).2⟩
